import Mathlib

/-!
Shallow embedding of the snap_storage library, a content-addressed snapshot
cache for Deno.  Byte content is modelled as a list of byte values, the
file system as explicit directory and file lists, the SQLite index as lists
of rows, and every external collaborator — the SHA-256 digest primitive
(`crypto.subtle.digest` plus hex encoding), the network fetcher, the JSON
parser and the clock — as a function or value parameter.  All operations
are translated from the TypeScript sources `snapshot.ts` and
`snap_storage.ts`.
-/

/-- Byte content: the model of `Uint8Array` buffers and of byte streams
(a stream is its sequence of bytes; the tee/clone needed for
single-consumption duplicates a pure value here). -/
abbrev Bytes := List Nat

/-- Model of `TextEncoder.encode`, used by `writeSnap` for string content. -/
def encodeStr (s : String) : Bytes := s.data.map Char.toNat

/-- Model of the text decoding performed by `Deno.readTextFile`. -/
def decodeBytes (b : Bytes) : String := String.mk (b.map Char.ofNat)

instance {ε α : Type} [DecidableEq ε] [DecidableEq α] : DecidableEq (Except ε α) :=
fun x y =>
  match x, y with
  | .ok a, .ok b =>
      if h : a = b then .isTrue (h ▸ rfl)
      else .isFalse (fun hh => h (Except.ok.inj hh))
  | .error a, .error b =>
      if h : a = b then .isTrue (h ▸ rfl)
      else .isFalse (fun hh => h (Except.error.inj hh))
  | .ok _, .error _ => .isFalse (fun hh => Except.noConfusion hh)
  | .error _, .ok _ => .isFalse (fun hh => Except.noConfusion hh)

/-- The exceptions the embedded operations can raise. -/
inductive Err where
  | invalidDigest
  | createFailed
  | readFailed
  | fetchRejected (e : String)
  | fetchFailed (msg : String)
  | notFound (msg : String)
  | decodeError (msg : String)
deriving DecidableEq

/-- Snapshot metadata: `Snapshot` in snapshot.ts, `SnapMeta` in the facade.
The timestamp is in seconds since the epoch. -/
structure SnapMeta where
  timestamp : Int
  contentHash : String
  path : String
deriving DecidableEq

/-- A freshness policy; `maxAge` is in seconds and optional (snapshot.ts). -/
structure Policy where
  maxAge : Option Int
deriving DecidableEq

/-- A snapshot handed back to callers: metadata plus materialized content.
`isFresh` is an optional field: `none` models a JS object built without the
key (reading it yields `undefined`), `some b` models the key set to the
boolean `b`. -/
structure Snapshot (T : Type) extends SnapMeta where
  content : T
  isFresh : Option Bool
deriving DecidableEq

/-- The part of a fetch `Response` that `cache` inspects: the success flag
and the (possibly null) body. -/
structure Response where
  ok : Bool
  body : Option Bytes
deriving DecidableEq

/-- Result of awaiting the external fetcher: either the promise rejects,
with an opaque error, or it resolves to a response. -/
abbrev FetchResult := Except String Response

/-- The file-system fragment the library touches: the set of existing
directories and a map from paths to file bytes (newest binding first). -/
structure FS where
  dirs : List String
  files : List (String × Bytes)
deriving DecidableEq

/-- Model of `Deno.readFile` and `Deno.readTextFile` lookups. -/
def FS.lookupFile (fs : FS) (p : String) : Option Bytes :=
  (fs.files.find? (fun e => decide (e.1 = p))).map (fun e => e.2)

/-- Overwrite (or create) the file at a path, as `Deno.create` + write do. -/
def FS.setFile (fs : FS) (p : String) (b : Bytes) : FS :=
  ⟨fs.dirs, (p, b) :: fs.files⟩

/-- Model of `join` from the `path` module: interleave the components with
a slash. -/
def joinPath (parts : List String) : String :=
  match parts with
  | [] => ""
  | p :: ps => ps.foldl (fun acc q => acc ++ "/" ++ q) p

/-- The directory containing a path: everything before the last slash. -/
def parentDir (p : String) : String :=
  String.mk ((p.data.reverse.dropWhile (fun c => c != '/')).drop 1).reverse

/-- snapshot.ts `hashLength`: hex digest length of SHA-256. -/
def hashLength : Nat := 64

/-- snapshot.ts `snapPath`: assert the digest length (the `assert` failure
is the `invalidDigest` condition), then build the two-level sharded path
`basePath/snaps/<first 2 characters>/<remaining characters>`. -/
def snapPath (basePath contentHash : String) : Except Err String :=
  if contentHash.length = hashLength then
    .ok (joinPath [basePath, "snaps", contentHash.take 2, contentHash.drop 2])
  else
    .error .invalidDigest

/-- snapshot.ts `followsPolicy`.  Note the JavaScript truthiness test
`if (policy.maxAge)`, under which a `maxAge` of 0, exactly like an absent
one, falls through to `return true`. -/
def followsPolicy (now0 : Int) (snap : SnapMeta) (policy : Policy) : Bool :=
  match policy.maxAge with
  | some a => if a = 0 then true else decide (now0 < snap.timestamp + a)
  | none => true

/-- Content accepted by `createSnap` and `writeSnap`: a byte buffer or a
byte stream (both are byte sequences here), or a string, which the source
encodes before hashing. -/
inductive Content where
  | bytes (b : Bytes)
  | str (s : String)
deriving DecidableEq

def Content.toBytes : Content → Bytes
  | .bytes b => b
  | .str s => encodeStr s

/-- snapshot.ts `writeSnap`.  `hashFn` stands for the external digest
primitive, `now0` for the clock reading, `writeOk` for whether the file
write started by the function completes successfully.  The source starts
the write (`snapFile.write(content)` resp. `content.pipeTo(...)`) without
awaiting it and closes the file, so the promise returned by `writeSnap`
does not depend on the outcome of that write; `Deno.create` is awaited and
rejects when the parent directory does not exist — the source never creates
that directory.  When the write fails the file is left as `Deno.create`
made it: empty. -/
def writeSnap (hashFn : Bytes → String) (now0 : Int) (writeOk : Bool)
    (basePath : String) (content : Content) (fs : FS) :
    Except Err SnapMeta × FS :=
  let bytes := content.toBytes
  let contentHash := hashFn bytes
  match snapPath basePath contentHash with
  | .error e => (.error e, fs)
  | .ok path =>
      if fs.dirs.contains (parentDir path) then
        (.ok ⟨now0, contentHash, path⟩, fs.setFile path (if writeOk then bytes else []))
      else
        (.error .createFailed, fs)

/-- A row of the `snap` table. -/
structure SnapRow where
  uriId : Nat
  timestamp : Int
  contentHash : String
deriving DecidableEq

/-- The state owned by a `SnapStorage` instance: the two SQLite tables and
the file system.  A row of the `uri` table is a list entry; its id is its
position in the list. -/
structure State where
  uris : List String
  snaps : List SnapRow
  fs : FS
deriving DecidableEq

namespace SnapStorage

/-- The prepared `#createUriQuery`, `INSERT INTO uri .. ON CONFLICT DO
UPDATE .. RETURNING id`: the id of the existing row for the value if there
is one, otherwise a fresh row is appended and its id returned. -/
def createUriQuery (uris : List String) (u : String) : Nat × List String :=
  match uris.findIdx? (fun v => decide (v = u)) with
  | some i => (i, uris)
  | none => (uris.length, uris ++ [u])

/-- One fold step realizing `ORDER BY timestamp DESC LIMIT 1`: keep the row
with the larger timestamp; on equal timestamps the first row seen is kept
(the SQL leaves the tie choice unspecified). -/
def pickLater (acc : Option (Int × String)) (r : SnapRow) : Option (Int × String) :=
  match acc with
  | none => some (r.timestamp, r.contentHash)
  | some (t, h) => if t < r.timestamp then some (r.timestamp, r.contentHash) else some (t, h)

/-- The rows of the `snap` table joined with `uri` on
`snap.uri_id = uri.id` and restricted to `uri.value = uri0`. -/
def rowsFor (st : State) (uri0 : String) : List SnapRow :=
  st.snaps.filter (fun r => decide (st.uris[r.uriId]? = some uri0))

/-- The prepared `#latestSnapQuery`: `SELECT timestamp, content_hash FROM
snap JOIN uri ON snap.uri_id = uri.id WHERE uri.value = ? ORDER BY
timestamp DESC LIMIT 1`.  Note: no condition on the timestamp. -/
def latestSnapQuery (st : State) (uri0 : String) : Option (Int × String) :=
  (rowsFor st uri0).foldl pickLater none

/-- snap_storage.ts `createSnap`: write the content, then upsert the uri
row, then insert the snap row.  (The `WriteOptions` third argument the
facade passes is ignored by the cited `writeSnap`, which takes only two
parameters, so it is not modelled.) -/
def createSnap (hashFn : Bytes → String) (now0 : Int) (writeOk : Bool)
    (dir : String) (uri : String) (content : Content) (st : State) :
    Except Err SnapMeta × State :=
  match writeSnap hashFn now0 writeOk dir content st.fs with
  | (.error e, fs') => (.error e, ⟨st.uris, st.snaps, fs'⟩)
  | (.ok snap, fs') =>
      let r := createUriQuery st.uris uri
      (.ok snap, ⟨r.2, st.snaps ++ [⟨r.1, snap.timestamp, snap.contentHash⟩], fs'⟩)

/-- snap_storage.ts `getLatestSnap`: first row of the latest-snap query,
with the path recomputed from the stored hash. -/
def getLatestSnap (dir : String) (st : State) (uri : String) :
    Except Err (Option SnapMeta) :=
  match latestSnapQuery st uri with
  | none => .ok none
  | some (t, h) =>
      match snapPath dir h with
      | .error e => .error e
      | .ok p => .ok (some ⟨t, h, p⟩)

/-- snap_storage.ts `getSnap`: `getLatestSnap` filtered by `followsPolicy`. -/
def getSnap (dir : String) (now0 : Int) (st : State) (uri : String)
    (policy : Policy) : Except Err (Option SnapMeta) :=
  match getLatestSnap dir st uri with
  | .error e => .error e
  | .ok none => .ok none
  | .ok (some s) => .ok (if followsPolicy now0 s policy then some s else none)

/-- snap_storage.ts `loadJSON`; `parse` stands for the external `JSON.parse`
(`none` models a thrown SyntaxError).  The result object is built as
`{ ...snap, content }` — without an `isFresh` key. -/
def loadJSON {T : Type} (parse : String → Option T) (dir : String)
    (now0 : Int) (st : State) (uri : String) (policy : Policy) :
    Except Err (Snapshot T) :=
  match getSnap dir now0 st uri policy with
  | .error e => .error e
  | .ok none => .error (.notFound ("No matching snapshot found for " ++ uri))
  | .ok (some snap) =>
      match st.fs.lookupFile snap.path with
      | none => .error .readFailed
      | some bytes =>
          match parse (decodeBytes bytes) with
          | some c => .ok ⟨snap, c, none⟩
          | none => .error (.decodeError "Snapshot does not contain valid JSON")

/-- The fetch-and-store arm of `cache` (the `else` branch): invoke the
fetcher; on a response that is ok and has a non-null body, store a clone of
the body via `createSnap` and mark the result fresh; otherwise throw
`Failed to fetch resource at <url>` (a plain `Error` carrying only this
message).  A rejection of the fetcher promise propagates unchanged. -/
def cacheStore (hashFn : Bytes → String) (now0 : Int) (writeOk : Bool)
    (dir : String) (st : State) (url : String)
    (fetchFn : String → FetchResult) : Except Err (Snapshot Response) × State :=
  match fetchFn url with
  | .error e => (.error (.fetchRejected e), st)
  | .ok resp =>
      if resp.ok then
        match resp.body with
        | some b =>
            match createSnap hashFn now0 writeOk dir url (.bytes b) st with
            | (.error e, st') => (.error e, st')
            | (.ok snap, st') => (.ok ⟨snap, resp, some true⟩, st')
        | none => (.error (.fetchFailed ("Failed to fetch resource at " ++ url)), st)
      else (.error (.fetchFailed ("Failed to fetch resource at " ++ url)), st)

/-- snap_storage.ts `cache`: serve the stored bytes when the latest
snapshot follows the policy (the bytes are read from disk, wrapped in
`new Response(data)` and marked `isFresh = false`, without touching the
fetcher); otherwise fetch and store. -/
def cache (hashFn : Bytes → String) (now0 : Int) (writeOk : Bool)
    (dir : String) (st : State) (url : String)
    (fetchFn : String → FetchResult) (policy : Policy) :
    Except Err (Snapshot Response) × State :=
  match getLatestSnap dir st url with
  | .error e => (.error e, st)
  | .ok (some snap) =>
      if followsPolicy now0 snap policy then
        match st.fs.lookupFile snap.path with
        | none => (.error .readFailed, st)
        | some data => (.ok ⟨snap, ⟨true, some data⟩, some false⟩, st)
      else cacheStore hashFn now0 writeOk dir st url fetchFn
  | .ok none => cacheStore hashFn now0 writeOk dir st url fetchFn

end SnapStorage

/-- Stated from the spec wording, for comparison only (claim C4): the
latest-snapshot lookup bounded by `maxTimestamp` — the matching row with
the greatest timestamp not exceeding the bound, none if no such row. -/
def latestSnapSpecQuery (st : State) (uri0 : String) (maxT : Int) :
    Option (Int × String) :=
  (st.snaps.filter (fun r =>
    decide (st.uris[r.uriId]? = some uri0) && decide (r.timestamp ≤ maxT))).foldl
    SnapStorage.pickLater none

/-- Stated from the claim wording, for comparison only (claim C3):
`followsPolicy` returns true unless `maxAge` is set and
`now - snap.timestamp ≥ maxAge`. -/
def followsPolicyClaim (now0 : Int) (snap : SnapMeta) (policy : Policy) : Bool :=
  match policy.maxAge with
  | some a => decide (now0 - snap.timestamp < a)
  | none => true

section Fixtures

/-- A concrete stand-in for the external digest primitive: every digest is
the 64-character string of letters a. -/
def hashC : Bytes → String := fun _ => String.mk (List.replicate 64 'a')

/-- A fetcher stand-in that rejects; serves to show code paths that must
not touch the network. -/
def fetchBoom : String → FetchResult := fun _ => .error "network unreachable"

/-- A fetcher resolving to a failed (non-ok) response with one body. -/
def fetchBad1 : String → FetchResult :=
  fun _ => .ok ⟨false, some (encodeStr "gateway timeout")⟩

/-- A fetcher resolving to a different failed (non-ok) response. -/
def fetchBad2 : String → FetchResult :=
  fun _ => .ok ⟨false, some (encodeStr "not found")⟩

/-- A state whose file system already contains the shard directory that
`hashC` digests map to (the source never creates it itself). -/
def stReady : State := ⟨[], [], ⟨["/d/snaps/aa"], []⟩⟩

end Fixtures

/-- A concrete 64-character digest used in witnesses. -/
def digC : String := String.mk ('a' :: 'b' :: List.replicate 62 'c')

/-- The digest every `hashC` call produces: 64 letters a. -/
def digA : String := String.mk (List.replicate 64 'a')

/-- The path `hashC` digests map to under the root `/d`. -/
def pathA : String := "/d/snaps/aa/" ++ String.mk (List.replicate 62 'a')

/-- A snapshot fixture: 50 seconds older than the clock value 100. -/
def snapF : SnapMeta := ⟨50, "h", "p"⟩

/-- C7: `snapPath` is a pure function of the root and the digest; for every
digest of length exactly 64 the assertion passes and the result is the
two-level sharded path `root/snaps/<first 2 characters>/<remaining 62
characters>`; for every digest of any other length it fails with the
invalid-digest error (the failed assertion). -/
theorem snapPath_spec (base digest : String) :
    (digest.length = 64 →
      snapPath base digest =
        .ok (base ++ "/" ++ "snaps" ++ "/" ++ digest.take 2 ++ "/" ++ digest.drop 2))
    ∧ (digest.length ≠ 64 →
      snapPath base digest = .error .invalidDigest) := by
  constructor
  · intro h
    simp [snapPath, hashLength, h, joinPath]
  · intro h
    simp [snapPath, hashLength, h]

/-- Witness for C7 at concrete inputs: a 64-character digest is sharded
into `/data/snaps/ab/<62 characters>`, while a 3-character digest is
rejected. -/
theorem snapPath_spec_witness :
    snapPath "/data" digC =
      .ok ("/data" ++ "/" ++ "snaps" ++ "/" ++ digC.take 2 ++ "/" ++ digC.drop 2)
    ∧ snapPath "/data" "abc" = .error .invalidDigest :=
  ⟨(snapPath_spec "/data" digC).1 (by decide),
   (snapPath_spec "/data" "abc").2 (by decide)⟩

/-- C3 counterexample: take the clock at 100 and a snapshot with timestamp
50.  With `maxAge = 0` the claim requires `followsPolicy` to return false
(the age 50 is at or beyond the bound 0, and the claim calls a zero maxAge
never fresh enough), but the code returns true: the JavaScript truthiness
test `if (policy.maxAge)` treats a zero `maxAge` exactly like an absent
one.  `followsPolicyClaim` is the claim wording, for comparison. -/
theorem followsPolicy_zero_counterexample :
    followsPolicy 100 snapF ⟨some 0⟩ = true
    ∧ followsPolicyClaim 100 snapF ⟨some 0⟩ = false := by decide

/-- C3 amended: `followsPolicy` returns true unless `maxAge` is set and
nonzero and `now - snap.timestamp ≥ maxAge`; an absent `maxAge` means
unlimited, a zero `maxAge` equally means unlimited (JS truthiness), and a
negative `maxAge` returns false for every snapshot whose timestamp is at
most now (forced refresh). -/
theorem followsPolicy_spec (now0 : Int) (snap : SnapMeta) (p : Policy) :
    (followsPolicy now0 snap p = false ↔
      ∃ a, p.maxAge = some a ∧ a ≠ 0 ∧ snap.timestamp + a ≤ now0)
    ∧ (p.maxAge = none → followsPolicy now0 snap p = true)
    ∧ (p.maxAge = some 0 → followsPolicy now0 snap p = true)
    ∧ (∀ a, p.maxAge = some a → a < 0 → snap.timestamp ≤ now0 →
        followsPolicy now0 snap p = false) := by
  obtain ⟨ma⟩ := p
  refine ⟨?_, ?_, ?_, ?_⟩
  · cases ma with
    | none => simp [followsPolicy]
    | some a =>
        by_cases h0 : a = 0
        · subst h0
          simp [followsPolicy]
        · simp only [followsPolicy, if_neg h0, decide_eq_false_iff_not, Int.not_lt,
            Option.some.injEq]
          constructor
          · intro hle
            exact ⟨a, rfl, h0, hle⟩
          · rintro ⟨b, hb, _, hle⟩
            cases hb
            exact hle
  · rintro rfl
    simp [followsPolicy]
  · rintro rfl
    simp [followsPolicy]
  · rintro a rfl hneg hts
    simp only [followsPolicy, if_neg (by omega : ¬a = 0), decide_eq_false_iff_not,
      Int.not_lt]
    omega

/-- Witness for C3 amended, at the clock value 100 and a snapshot with
timestamp 50: a negative maxAge rejects it, while maxAge 0 and an absent
maxAge accept it. -/
theorem followsPolicy_spec_witness :
    followsPolicy 100 snapF ⟨some (-1)⟩ = false
    ∧ followsPolicy 100 snapF ⟨some 0⟩ = true
    ∧ followsPolicy 100 snapF ⟨none⟩ = true :=
  ⟨(followsPolicy_spec 100 snapF ⟨some (-1)⟩).2.2.2 (-1) rfl (by decide) (by decide),
   (followsPolicy_spec 100 snapF ⟨some 0⟩).2.2.1 rfl,
   (followsPolicy_spec 100 snapF ⟨none⟩).2.1 rfl⟩

/-- A file system in which the storage root `/data` exists but nothing
below it — the situation of the concrete scenario of the claim. -/
def fsFreshRoot : FS := ⟨["/data"], []⟩

/-- The shard directory the `hashC` digest maps to under `/data`. -/
def fsWithShard : FS := ⟨["/data/snaps/aa"], []⟩

/-- C5 (code bug): `writeSnap` never creates the destination directory.
On the fresh root `/data` of the concrete scenario (no `/data/snaps/aa`
directory yet) `writeSnap "/data" "hello"` fails with the rejection of
`Deno.create` instead of writing, and leaves the file system unchanged.
Once the shard directory exists by other means, the very same call writes
exactly the bytes of "hello" to `/data/snaps/<d02>/<d2:>` and returns
`(now, digest, path)`, confirming that the missing directory creation is
the only obstacle. -/
theorem writeSnap_missing_mkdir :
    (writeSnap hashC 100 true "/data" (.str "hello") fsFreshRoot).1 = .error .createFailed
    ∧ (writeSnap hashC 100 true "/data" (.str "hello") fsFreshRoot).2 = fsFreshRoot
    ∧ (writeSnap hashC 100 true "/data" (.str "hello") fsWithShard).1 =
        .ok ⟨100, digA, "/data/snaps/aa/" ++ String.mk (List.replicate 62 'a')⟩
    ∧ (writeSnap hashC 100 true "/data" (.str "hello") fsWithShard).2.lookupFile
        ("/data/snaps/aa/" ++ String.mk (List.replicate 62 'a'))
        = some (encodeStr "hello") := by decide

/-- C6 (code bug): the index row is not sequenced after a successful
content write.  The source starts the file write without awaiting it, so
`createSnap` resolves and records the `(uri, timestamp, content_hash)` row
even when that write fails (`writeOk = false` below), leaving the empty
file made by `Deno.create` indexed; the returned metadata is identical to
that of a successful write, i.e. the outcome cannot depend on the write
completing. -/
theorem createSnap_row_despite_failed_write :
    (SnapStorage.createSnap hashC 100 false "/d" "test:x" (.str "hello") stReady).1 =
      .ok ⟨100, digA, pathA⟩
    ∧ (SnapStorage.createSnap hashC 100 false "/d" "test:x" (.str "hello") stReady).2.snaps =
      [⟨0, 100, digA⟩]
    ∧ (SnapStorage.createSnap hashC 100 false "/d" "test:x" (.str "hello") stReady).2.fs.lookupFile
        pathA = some []
    ∧ (SnapStorage.createSnap hashC 100 false "/d" "test:x" (.str "hello") stReady).1 =
      (SnapStorage.createSnap hashC 100 true "/d" "test:x" (.str "hello") stReady).1 := by
  decide

/-- C1: when a stored snapshot exists for the URI (an index row is found
and its bytes are on disk) and it follows the supplied policy, `cache`
serves the stored bytes wrapped in a response value, marks
`isFresh = false`, leaves the state untouched — and its result does not
depend on the fetcher in any way, i.e. the fetcher is never invoked on
this path. -/
theorem cache_serves_stored (hashFn : Bytes → String) (now0 : Int)
    (writeOk : Bool) (dir : String) (st : State) (url : String)
    (fetchFn : String → FetchResult) (policy : Policy) (snap : SnapMeta)
    (data : Bytes)
    (hsnap : SnapStorage.getLatestSnap dir st url = .ok (some snap))
    (hpolicy : followsPolicy now0 snap policy = true)
    (hdata : st.fs.lookupFile snap.path = some data) :
    SnapStorage.cache hashFn now0 writeOk dir st url fetchFn policy =
      (.ok ⟨snap, ⟨true, some data⟩, some false⟩, st)
    ∧ ∀ fetchFn2 : String → FetchResult,
        SnapStorage.cache hashFn now0 writeOk dir st url fetchFn2 policy =
          SnapStorage.cache hashFn now0 writeOk dir st url fetchFn policy := by
  constructor
  · simp [SnapStorage.cache, hsnap, hpolicy, hdata]
  · intro fetchFn2
    simp [SnapStorage.cache, hsnap, hpolicy, hdata]

/-- The state after one snapshot of "hi" for `test:x` was created at
time 90: one uri row, one snap row, the content on disk. -/
def stServe : State :=
  (SnapStorage.createSnap hashC 90 true "/d" "test:x" (.str "hi") stReady).2

/-- The metadata of the snapshot stored in `stServe`. -/
def snapServe : SnapMeta := ⟨90, digA, pathA⟩

/-- Witness for C1: with the stored snapshot of `stServe` and the
unbounded default policy, `cache` at time 100 returns the stored bytes of
"hi", not fresh, unchanged state — although the supplied fetcher would
reject if it were invoked. -/
theorem cache_serves_stored_witness :
    SnapStorage.cache hashC 100 true "/d" stServe "test:x" fetchBoom ⟨none⟩ =
      (.ok ⟨snapServe, ⟨true, some (encodeStr "hi")⟩, some false⟩, stServe) :=
  (cache_serves_stored hashC 100 true "/d" stServe "test:x" fetchBoom ⟨none⟩
    snapServe (encodeStr "hi") (by decide) (by decide) (by decide)).1

/-- C2 counterexample: two fetchers resolving to different failed
responses make `cache` fail with the very same error value, the plain
message `Failed to fetch resource at <url>`: the raised error is a
function of the URL alone, so it cannot carry the failed response for
inspection (the `ResponseError` class of the repository, which does carry
one, is not used here).  The state comes back unchanged in both runs. -/
theorem cache_fetch_error_carries_no_response :
    SnapStorage.cache hashC 100 true "/d" stReady "test:x" fetchBad1 ⟨none⟩ =
      (.error (.fetchFailed "Failed to fetch resource at test:x"), stReady)
    ∧ SnapStorage.cache hashC 100 true "/d" stReady "test:x" fetchBad2 ⟨none⟩ =
      (.error (.fetchFailed "Failed to fetch resource at test:x"), stReady)
    ∧ fetchBad1 "test:x" ≠ fetchBad2 "test:x" := by decide

/-- C2 amended: when no stored snapshot satisfies the policy and the fetch
does not produce an ok response with a non-null body, `cache` fails — a
rejection of the fetcher promise propagates unchanged, while a resolved
but unsuccessful or bodyless response raises the error message naming the
URL (without the response) — and in every such case the state is returned
exactly as it was: no content file is written and no index row is added. -/
theorem cache_fetch_failure (hashFn : Bytes → String) (now0 : Int)
    (writeOk : Bool) (dir : String) (st : State) (url : String)
    (fetchFn : String → FetchResult) (policy : Policy)
    (snapOpt : Option SnapMeta)
    (hlookup : SnapStorage.getLatestSnap dir st url = .ok snapOpt)
    (hstale : ∀ snap, snapOpt = some snap → followsPolicy now0 snap policy = false) :
    (∀ e, fetchFn url = .error e →
      SnapStorage.cache hashFn now0 writeOk dir st url fetchFn policy =
        (.error (.fetchRejected e), st))
    ∧ (∀ resp, fetchFn url = .ok resp → (resp.ok = false ∨ resp.body = none) →
      SnapStorage.cache hashFn now0 writeOk dir st url fetchFn policy =
        (.error (.fetchFailed ("Failed to fetch resource at " ++ url)), st)) := by
  have hstore : SnapStorage.cache hashFn now0 writeOk dir st url fetchFn policy =
      SnapStorage.cacheStore hashFn now0 writeOk dir st url fetchFn := by
    cases snapOpt with
    | none => simp [SnapStorage.cache, hlookup]
    | some snap => simp [SnapStorage.cache, hlookup, hstale snap rfl]
  constructor
  · intro e he
    rw [hstore]
    simp [SnapStorage.cacheStore, he]
  · intro resp hresp hbad
    rw [hstore]
    cases hbad with
    | inl hok => simp [SnapStorage.cacheStore, hresp, hok]
    | inr hbody =>
        cases hok : resp.ok with
        | false => simp [SnapStorage.cacheStore, hresp, hok]
        | true => simp [SnapStorage.cacheStore, hresp, hok, hbody]

/-- Witness for C2 amended, on an empty storage: a rejecting fetcher makes
`cache` propagate the rejection, a non-ok response makes it raise the
message naming the URL; the state is unchanged either way. -/
theorem cache_fetch_failure_witness :
    SnapStorage.cache hashC 100 true "/d" stReady "test:x" fetchBoom ⟨none⟩ =
      (.error (.fetchRejected "network unreachable"), stReady)
    ∧ SnapStorage.cache hashC 100 true "/d" stReady "test:x" fetchBad1 ⟨none⟩ =
      (.error (.fetchFailed ("Failed to fetch resource at " ++ "test:x")), stReady) :=
  ⟨(cache_fetch_failure hashC 100 true "/d" stReady "test:x" fetchBoom ⟨none⟩
      none (by decide) (fun snap h => by cases h)).1 "network unreachable" rfl,
   (cache_fetch_failure hashC 100 true "/d" stReady "test:x" fetchBad1 ⟨none⟩
      none (by decide) (fun snap h => by cases h)).2
      ⟨false, some (encodeStr "gateway timeout")⟩ rfl (Or.inl rfl)⟩

/-- Helper: `createSnap` only ever appends to the `snap` table. -/
theorem createSnap_snaps_append (hashFn : Bytes → String) (now0 : Int)
    (writeOk : Bool) (dir uri : String) (content : Content) (st : State) :
    ∃ tl, (SnapStorage.createSnap hashFn now0 writeOk dir uri content st).2.snaps
      = st.snaps ++ tl := by
  rcases hw : writeSnap hashFn now0 writeOk dir content st.fs with ⟨r, fs2⟩
  cases r with
  | error e =>
      refine ⟨[], ?_⟩
      simp [SnapStorage.createSnap, hw]
  | ok snap =>
      refine ⟨[⟨(SnapStorage.createUriQuery st.uris uri).1, snap.timestamp,
        snap.contentHash⟩], ?_⟩
      simp [SnapStorage.createSnap, hw]

/-- Helper: the fetch-and-store arm of `cache` only ever appends. -/
theorem cacheStore_snaps_append (hashFn : Bytes → String) (now0 : Int)
    (writeOk : Bool) (dir : String) (st : State) (url : String)
    (fetchFn : String → FetchResult) :
    ∃ tl, (SnapStorage.cacheStore hashFn now0 writeOk dir st url fetchFn).2.snaps
      = st.snaps ++ tl := by
  cases hf : fetchFn url with
  | error e => exact ⟨[], by simp [SnapStorage.cacheStore, hf]⟩
  | ok resp =>
      cases hok : resp.ok with
      | false => exact ⟨[], by simp [SnapStorage.cacheStore, hf, hok]⟩
      | true =>
          cases hb : resp.body with
          | none => exact ⟨[], by simp [SnapStorage.cacheStore, hf, hok, hb]⟩
          | some b =>
              obtain ⟨tl, htl⟩ :=
                createSnap_snaps_append hashFn now0 writeOk dir url (.bytes b) st
              refine ⟨tl, ?_⟩
              rcases hc : SnapStorage.createSnap hashFn now0 writeOk dir url
                (.bytes b) st with ⟨r, st2⟩
              rw [hc] at htl
              cases r with
              | error e => simpa [SnapStorage.cacheStore, hf, hok, hb, hc] using htl
              | ok snap => simpa [SnapStorage.cacheStore, hf, hok, hb, hc] using htl

/-- C9: the snapshot history is append-only.  The state-modifying
operations `createSnap` and `cache` only ever append rows to the `snap`
table: afterwards the table is the old table plus a (possibly empty) list
of new rows, so every row present before is still present, unchanged and
at its position.  No operation updates or deletes a row; `getLatestSnap`,
`getSnap` and `loadJSON` run only SELECT statements in the source and are
accordingly state-free read functions in this embedding. -/
theorem snaps_append_only (hashFn : Bytes → String) (now0 : Int)
    (writeOk : Bool) (dir uri : String) (content : Content) (st : State)
    (fetchFn : String → FetchResult) (policy : Policy) :
    (∃ tl, (SnapStorage.createSnap hashFn now0 writeOk dir uri content st).2.snaps
      = st.snaps ++ tl)
    ∧ (∃ tl, (SnapStorage.cache hashFn now0 writeOk dir st uri fetchFn policy).2.snaps
      = st.snaps ++ tl) := by
  refine ⟨createSnap_snaps_append hashFn now0 writeOk dir uri content st, ?_⟩
  cases hl : SnapStorage.getLatestSnap dir st uri with
  | error e => exact ⟨[], by simp [SnapStorage.cache, hl]⟩
  | ok snapOpt =>
      cases snapOpt with
      | none =>
          obtain ⟨tl, htl⟩ :=
            cacheStore_snaps_append hashFn now0 writeOk dir st uri fetchFn
          exact ⟨tl, by simpa [SnapStorage.cache, hl] using htl⟩
      | some snap =>
          cases hp : followsPolicy now0 snap policy with
          | true =>
              cases hd : st.fs.lookupFile snap.path with
              | none => exact ⟨[], by simp [SnapStorage.cache, hl, hp, hd]⟩
              | some data => exact ⟨[], by simp [SnapStorage.cache, hl, hp, hd]⟩
          | false =>
              obtain ⟨tl, htl⟩ :=
                cacheStore_snaps_append hashFn now0 writeOk dir st uri fetchFn
              exact ⟨tl, by simpa [SnapStorage.cache, hl, hp] using htl⟩

/-- Helper: the only exception `snapPath` can raise is the failed digest
assertion. -/
theorem snapPath_error_eq (b h : String) (e : Err)
    (he : snapPath b h = .error e) : e = .invalidDigest := by
  by_cases hl : h.length = hashLength
  · simp [snapPath, hl] at he
  · simp [snapPath, hl] at he
    exact he.symm

/-- Helper: the only exception `getLatestSnap` can raise comes from
`snapPath`. -/
theorem getLatestSnap_error_eq (dir : String) (st : State) (uri : String)
    (e : Err) (he : SnapStorage.getLatestSnap dir st uri = .error e) :
    e = .invalidDigest := by
  cases hq : SnapStorage.latestSnapQuery st uri with
  | none => simp [SnapStorage.getLatestSnap, hq] at he
  | some th =>
      obtain ⟨t, h⟩ := th
      cases hp : snapPath dir h with
      | error e2 =>
          simp [SnapStorage.getLatestSnap, hq, hp] at he
          rw [← he]
          exact snapPath_error_eq dir h e2 hp
      | ok p => simp [SnapStorage.getLatestSnap, hq, hp] at he

/-- Helper: the only exception `getSnap` can raise comes from
`getLatestSnap`. -/
theorem getSnap_error_eq (dir : String) (now0 : Int) (st : State)
    (uri : String) (policy : Policy) (e : Err)
    (he : SnapStorage.getSnap dir now0 st uri policy = .error e) :
    e = .invalidDigest := by
  cases hg : SnapStorage.getLatestSnap dir st uri with
  | error e2 =>
      simp [SnapStorage.getSnap, hg] at he
      rw [← he]
      exact getLatestSnap_error_eq dir st uri e2 hg
  | ok snapOpt =>
      cases snapOpt with
      | none => simp [SnapStorage.getSnap, hg] at he
      | some s => simp [SnapStorage.getSnap, hg] at he

/-- C8: `loadJSON` fails with the not-found condition exactly when
`getSnap` yields none (no snapshot exists, or the latest one fails the
policy); and — given the snapshot `getSnap` returns together with the
bytes stored at its path — it fails with the decode condition exactly when
the stored text is not valid JSON, and otherwise returns the snapshot
metadata together with the parsed content. -/
theorem loadJSON_conditions {T : Type} (parse : String → Option T)
    (dir : String) (now0 : Int) (st : State) (uri : String) (policy : Policy) :
    ((∃ m, SnapStorage.loadJSON parse dir now0 st uri policy =
        .error (.notFound m)) ↔
      SnapStorage.getSnap dir now0 st uri policy = .ok none)
    ∧ (∀ snap bytes,
        SnapStorage.getSnap dir now0 st uri policy = .ok (some snap) →
        st.fs.lookupFile snap.path = some bytes →
        ((∃ m, SnapStorage.loadJSON parse dir now0 st uri policy =
            .error (.decodeError m)) ↔
          parse (decodeBytes bytes) = none)
        ∧ (∀ c, parse (decodeBytes bytes) = some c →
            SnapStorage.loadJSON parse dir now0 st uri policy =
              .ok ⟨snap, c, none⟩)) := by
  constructor
  · cases hg : SnapStorage.getSnap dir now0 st uri policy with
    | error e =>
        have he := getSnap_error_eq dir now0 st uri policy e hg
        subst he
        simp [SnapStorage.loadJSON, hg]
    | ok snapOpt =>
        cases snapOpt with
        | none => simp [SnapStorage.loadJSON, hg]
        | some snap =>
            cases hd : st.fs.lookupFile snap.path with
            | none => simp [SnapStorage.loadJSON, hg, hd]
            | some bytes =>
                cases hp : parse (decodeBytes bytes) with
                | none => simp [SnapStorage.loadJSON, hg, hd, hp]
                | some c => simp [SnapStorage.loadJSON, hg, hd, hp]
  · intro snap bytes hg hd
    constructor
    · cases hp : parse (decodeBytes bytes) with
      | none => simp [SnapStorage.loadJSON, hg, hd, hp]
      | some c => simp [SnapStorage.loadJSON, hg, hd, hp]
    · intro c hp
      simp [SnapStorage.loadJSON, hg, hd, hp]

/-- A concrete stand-in for the external `JSON.parse` collaborator,
recognizing the document "42". -/
def parseNum : String → Option Nat := fun s => if s = "42" then some 42 else none

/-- The state after one snapshot with text "42" for `test:x` was created
at time 90. -/
def stJSON : State :=
  (SnapStorage.createSnap hashC 90 true "/d" "test:x" (.str "42") stReady).2

/-- Witness for C8: on `stJSON` the snapshot is found, its stored text
parses, and `loadJSON` returns the metadata with the parsed content. -/
theorem loadJSON_conditions_witness :
    SnapStorage.loadJSON parseNum "/d" 100 stJSON "test:x" ⟨none⟩ =
      .ok ⟨⟨90, digA, pathA⟩, 42, none⟩ :=
  ((loadJSON_conditions parseNum "/d" 100 stJSON "test:x" ⟨none⟩).2
    ⟨90, digA, pathA⟩ (encodeStr "42") (by decide) (by decide)).2 42 (by decide)

/-- C10 counterexample: a successful `loadJSON` result — content served
from existing storage — carries no `isFresh` key at all: the source builds
it as `{ ...snap, content }`, so reading `.isFresh` yields undefined
(modelled as `none`), which is not the boolean false the claim requires
for content served from storage. -/
theorem loadJSON_isFresh_undefined :
    SnapStorage.loadJSON parseNum "/d" 100 stJSON "test:x" ⟨none⟩ =
      .ok ⟨⟨90, digA, pathA⟩, 42, none⟩
    ∧ (none : Option Bool) ≠ some false := by decide

/-- A fetcher resolving to an ok response whose body holds the bytes of
"fresh". -/
def fetchGood : String → FetchResult := fun _ => .ok ⟨true, some (encodeStr "fresh")⟩

/-- The state after `cache` stored the fetched "fresh" bytes at time 100. -/
def stFresh : State :=
  (SnapStorage.createSnap hashC 100 true "/d" "test:x"
    (.bytes (encodeStr "fresh")) stReady).2

/-- C10 amended: results of `cache` always carry the `isFresh` boolean —
it is false exactly on the served-from-storage path and true exactly on
the fetch-and-store path, i.e. true iff the content was produced by a new
fetch in the current call — while the results of `loadJSON` carry no
`isFresh` field at all (`none`, i.e. undefined, which is falsy in JS but
not the boolean false). -/
theorem cache_loadJSON_isFresh (hashFn : Bytes → String) (now0 : Int)
    (writeOk : Bool) (dir : String) (st : State) (url : String)
    (fetchFn : String → FetchResult) (policy : Policy) :
    (∀ snap data, SnapStorage.getLatestSnap dir st url = .ok (some snap) →
        followsPolicy now0 snap policy = true →
        st.fs.lookupFile snap.path = some data →
        SnapStorage.cache hashFn now0 writeOk dir st url fetchFn policy =
          (.ok ⟨snap, ⟨true, some data⟩, some false⟩, st))
    ∧ (∀ snapOpt resp b meta st2,
        SnapStorage.getLatestSnap dir st url = .ok snapOpt →
        (∀ snap, snapOpt = some snap → followsPolicy now0 snap policy = false) →
        fetchFn url = .ok resp → resp.ok = true → resp.body = some b →
        SnapStorage.createSnap hashFn now0 writeOk dir url (.bytes b) st =
          (.ok meta, st2) →
        SnapStorage.cache hashFn now0 writeOk dir st url fetchFn policy =
          (.ok ⟨meta, resp, some true⟩, st2))
    ∧ (∀ (T : Type) (parse : String → Option T) (uri : String)
        (snapRes : Snapshot T),
        SnapStorage.loadJSON parse dir now0 st uri policy = .ok snapRes →
        snapRes.isFresh = none) := by
  refine ⟨?_, ?_, ?_⟩
  · intro snap data hsnap hpolicy hdata
    simp [SnapStorage.cache, hsnap, hpolicy, hdata]
  · intro snapOpt resp b meta st2 hlookup hstale hfetch hok hbody hcreate
    have hstore : SnapStorage.cache hashFn now0 writeOk dir st url fetchFn policy =
        SnapStorage.cacheStore hashFn now0 writeOk dir st url fetchFn := by
      cases snapOpt with
      | none => simp [SnapStorage.cache, hlookup]
      | some snap => simp [SnapStorage.cache, hlookup, hstale snap rfl]
    rw [hstore]
    simp [SnapStorage.cacheStore, hfetch, hok, hbody, hcreate]
  · intro T parse uri snapRes hload
    cases hg : SnapStorage.getSnap dir now0 st uri policy with
    | error e => simp [SnapStorage.loadJSON, hg] at hload
    | ok snapOpt =>
        cases snapOpt with
        | none => simp [SnapStorage.loadJSON, hg] at hload
        | some snap =>
            cases hd : st.fs.lookupFile snap.path with
            | none => simp [SnapStorage.loadJSON, hg, hd] at hload
            | some bytes =>
                cases hp : parse (decodeBytes bytes) with
                | none => simp [SnapStorage.loadJSON, hg, hd, hp] at hload
                | some c =>
                    simp [SnapStorage.loadJSON, hg, hd, hp] at hload
                    rw [← hload]

/-- Witness for C10 amended: a cache hit at time 100 on `stServe` carries
`isFresh = some false`; a first fetch-and-store on the empty storage
carries `isFresh = some true`; a `loadJSON` result carries `none`. -/
theorem cache_loadJSON_isFresh_witness :
    SnapStorage.cache hashC 100 true "/d" stServe "test:x" fetchBoom ⟨none⟩ =
      (.ok ⟨snapServe, ⟨true, some (encodeStr "hi")⟩, some false⟩, stServe)
    ∧ SnapStorage.cache hashC 100 true "/d" stReady "test:x" fetchGood ⟨none⟩ =
      (.ok ⟨⟨100, digA, pathA⟩, ⟨true, some (encodeStr "fresh")⟩, some true⟩, stFresh)
    ∧ (⟨⟨90, digA, pathA⟩, 42, none⟩ : Snapshot Nat).isFresh = none :=
  ⟨(cache_loadJSON_isFresh hashC 100 true "/d" stServe "test:x" fetchBoom ⟨none⟩).1
      snapServe (encodeStr "hi") (by decide) (by decide) (by decide),
   (cache_loadJSON_isFresh hashC 100 true "/d" stReady "test:x" fetchGood ⟨none⟩).2.1
      none ⟨true, some (encodeStr "fresh")⟩ (encodeStr "fresh") ⟨100, digA, pathA⟩
      stFresh (by decide) (fun snap h => by cases h) rfl rfl rfl (by decide),
   (cache_loadJSON_isFresh hashC 100 true "/d" stJSON "test:x" fetchBoom ⟨none⟩).2.2
      Nat parseNum "test:x" ⟨⟨90, digA, pathA⟩, 42, none⟩ (by decide)⟩

/-- Helper: one `pickLater` step never turns the accumulator into none. -/
theorem pickLater_isSome (acc : Option (Int × String)) (r : SnapRow) :
    (SnapStorage.pickLater acc r).isSome := by
  cases acc with
  | none => simp [SnapStorage.pickLater]
  | some th =>
      obtain ⟨t, h⟩ := th
      by_cases hlt : t < r.timestamp <;> simp [SnapStorage.pickLater, hlt]

/-- Helper: folding `pickLater` from a some accumulator stays some. -/
theorem foldl_pickLater_isSome (l : List SnapRow) :
    ∀ x : Int × String, (l.foldl SnapStorage.pickLater (some x)).isSome := by
  induction l with
  | nil => intro x; simp
  | cons r l ih =>
      intro x
      rw [List.foldl_cons]
      have hs := pickLater_isSome (some x) r
      obtain ⟨y, hy⟩ := Option.isSome_iff_exists.mp hs
      rw [hy]
      exact ih y

/-- Helper: the fold yields none exactly when it starts from none on an
empty list. -/
theorem foldl_pickLater_none_iff (l : List SnapRow)
    (acc : Option (Int × String)) :
    l.foldl SnapStorage.pickLater acc = none ↔ acc = none ∧ l = [] := by
  cases l with
  | nil => simp
  | cons r l =>
      rw [List.foldl_cons]
      have hs := pickLater_isSome acc r
      obtain ⟨y, hy⟩ := Option.isSome_iff_exists.mp hs
      rw [hy]
      have hsome := foldl_pickLater_isSome l y
      constructor
      · intro hnone
        rw [hnone] at hsome
        simp at hsome
      · rintro ⟨-, h⟩
        cases h

/-- Helper: a some result of the fold is the initial accumulator or one of
the rows of the list. -/
theorem foldl_pickLater_mem (l : List SnapRow) :
    ∀ (acc : Option (Int × String)) (t : Int) (h : String),
      l.foldl SnapStorage.pickLater acc = some (t, h) →
      acc = some (t, h) ∨ ∃ r ∈ l, r.timestamp = t ∧ r.contentHash = h := by
  induction l with
  | nil =>
      intro acc t h hf
      exact Or.inl hf
  | cons r l ih =>
      intro acc t h hf
      rw [List.foldl_cons] at hf
      rcases ih (SnapStorage.pickLater acc r) t h hf with hacc | ⟨r2, hr2, ht2, hh2⟩
      · cases acc with
        | none =>
            simp [SnapStorage.pickLater] at hacc
            exact Or.inr ⟨r, List.mem_cons_self r l, hacc.1, hacc.2⟩
        | some th =>
            obtain ⟨t0, h0⟩ := th
            by_cases hlt : t0 < r.timestamp
            · simp [SnapStorage.pickLater, hlt] at hacc
              exact Or.inr ⟨r, List.mem_cons_self r l, hacc.1, hacc.2⟩
            · simp [SnapStorage.pickLater, hlt] at hacc
              exact Or.inl (by rw [hacc.1, hacc.2])
      · exact Or.inr ⟨r2, List.mem_cons_of_mem r hr2, ht2, hh2⟩

/-- Helper: a some result of the fold has a timestamp at least that of
every row of the list and of the initial accumulator. -/
theorem foldl_pickLater_ge (l : List SnapRow) :
    ∀ (acc : Option (Int × String)) (t : Int) (h : String),
      l.foldl SnapStorage.pickLater acc = some (t, h) →
      (∀ r ∈ l, r.timestamp ≤ t)
      ∧ (∀ t0 h0, acc = some (t0, h0) → t0 ≤ t) := by
  induction l with
  | nil =>
      intro acc t h hf
      refine ⟨by simp, ?_⟩
      intro t0 h0 hacc
      rw [hacc] at hf
      injection hf with hf2
      rw [(Prod.mk.injEq _ _ _ _).mp hf2 |>.1]
  | cons r l ih =>
      intro acc t h hf
      rw [List.foldl_cons] at hf
      obtain ⟨y, hy⟩ := Option.isSome_iff_exists.mp (pickLater_isSome acc r)
      obtain ⟨t1, h1⟩ := y
      rw [hy] at hf
      obtain ⟨hall, hacc1⟩ := ih (some (t1, h1)) t h hf
      have ht1 : t1 ≤ t := hacc1 t1 h1 rfl
      have hrt1 : r.timestamp ≤ t1 := by
        cases acc with
        | none =>
            simp [SnapStorage.pickLater] at hy
            omega
        | some th =>
            obtain ⟨t0, h0⟩ := th
            by_cases hlt : t0 < r.timestamp
            · simp [SnapStorage.pickLater, hlt] at hy
              omega
            · simp [SnapStorage.pickLater, hlt] at hy
              omega
      refine ⟨?_, ?_⟩
      · intro r2 hr2
        rcases List.mem_cons.mp hr2 with hr2 | hr2
        · rw [hr2]; omega
        · exact hall r2 hr2
      · intro t0 h0 hacc
        cases acc with
        | none => cases hacc
        | some th =>
            obtain ⟨t02, h02⟩ := th
            injection hacc with hacc2
            obtain ⟨he1, -⟩ := (Prod.mk.injEq _ _ _ _).mp hacc2
            by_cases hlt : t02 < r.timestamp
            · simp [SnapStorage.pickLater, hlt] at hy
              omega
            · simp [SnapStorage.pickLater, hlt] at hy
              omega

/-- The state after a snapshot of `x` was created at time 100. -/
def stOnce : State :=
  (SnapStorage.createSnap hashC 100 true "/d" "x" (.str "c") stReady).2

/-- The state after snapshots of `x` were created at times 100 and 200. -/
def stTwo : State :=
  (SnapStorage.createSnap hashC 200 true "/d" "x" (.str "c") stOnce).2

/-- C4 counterexample: the storage holds rows for `x` at timestamps 100
and 200.  Under the claimed contract, the lookup bounded by
`maxTimestamp = 150` must return the timestamp-100 row
(`latestSnapSpecQuery`, stated from the spec, does).  The implemented
lookup offers no `maxTimestamp` parameter at all — neither the SQL of
`#latestSnapQuery` nor `getLatestSnap` mentions a time — and returns the
timestamp-200 row: no bound, and no default of "now at call time", is
applied. -/
theorem getLatestSnap_ignores_maxTimestamp :
    SnapStorage.getLatestSnap "/d" stTwo "x" = .ok (some ⟨200, digA, pathA⟩)
    ∧ latestSnapSpecQuery stTwo "x" 150 = some (100, digA)
    ∧ SnapStorage.latestSnapQuery stTwo "x" ≠ latestSnapSpecQuery stTwo "x" 150 := by
  decide

/-- C4 amended: the implemented lookup takes no `maxTimestamp` bound.  For
every state and URI, `latestSnapQuery` returns a recorded row of that URI
with the greatest timestamp among all of its rows — regardless of the
current time — and none exactly when the URI has no rows; `getLatestSnap`
wraps the returned row together with the path recomputed from its hash. -/
theorem getLatestSnap_greatest (dir : String) (st : State) (uri : String) :
    (∀ t h, SnapStorage.latestSnapQuery st uri = some (t, h) →
      (∃ r ∈ SnapStorage.rowsFor st uri, r.timestamp = t ∧ r.contentHash = h)
      ∧ ∀ r ∈ SnapStorage.rowsFor st uri, r.timestamp ≤ t)
    ∧ (SnapStorage.latestSnapQuery st uri = none ↔
        SnapStorage.rowsFor st uri = [])
    ∧ (∀ t h, SnapStorage.latestSnapQuery st uri = some (t, h) →
        h.length = 64 →
        SnapStorage.getLatestSnap dir st uri =
          .ok (some ⟨t, h, joinPath [dir, "snaps", h.take 2, h.drop 2]⟩))
    ∧ (SnapStorage.latestSnapQuery st uri = none →
        SnapStorage.getLatestSnap dir st uri = .ok none) := by
  refine ⟨?_, ?_, ?_, ?_⟩
  · intro t h hq
    unfold SnapStorage.latestSnapQuery at hq
    rcases foldl_pickLater_mem (SnapStorage.rowsFor st uri) none t h hq with
      hacc | hmem
    · cases hacc
    · exact ⟨hmem, (foldl_pickLater_ge (SnapStorage.rowsFor st uri) none t h hq).1⟩
  · unfold SnapStorage.latestSnapQuery
    rw [foldl_pickLater_none_iff]
    simp
  · intro t h hq hlen
    simp [SnapStorage.getLatestSnap, hq, snapPath, hashLength, hlen]
  · intro hq
    simp [SnapStorage.getLatestSnap, hq]

/-- Witness for C4 amended, on the two-row storage `stTwo`: the returned
row is the one with the greatest timestamp, 200. -/
theorem getLatestSnap_greatest_witness :
    SnapStorage.getLatestSnap "/d" stTwo "x" =
      .ok (some ⟨200, digA, joinPath ["/d", "snaps", digA.take 2, digA.drop 2]⟩) :=
  (getLatestSnap_greatest "/d" stTwo "x").2.2.1 200 digA (by decide) (by decide)
